import Mathlib

/-!
Verification development for the agent-orchestrator repository.

Definitions in the first half embed, in order:
  - packages/web/src/lib/validation.ts (validateString, validateIdentifier,
    stripControlChars)
  - the web API routes kill / restore / send / terminal
  - the lifecycle-poller module (startLifecyclePoller / stopLifecyclePoller)
  - the core components that the repository documents but whose sources are
    not present here (HashNamespace, OriginGuard, SessionIdAllocator,
    SessionLifecycleStateMachine, LifecycleManager tick, SessionManager
    kill / restore); those carry a doc comment starting
    "Modelled from the spec:".
Theorems follow in the second half.
-/

/-- A JavaScript value as seen by the validation helpers: the routes pass
`undefined`, `null`, strings, or some other runtime value. -/
inductive JsValue where
  | undef
  | nullV
  | str (s : String)
  | other
deriving DecidableEq

/-- The TypeScript cast `value as string` after a string check has passed. -/
def jsString : JsValue → String
  | .str s => s
  | _ => ""

/-- Leading and trailing whitespace removed from a character list. -/
def trimChars (l : List Char) : List Char :=
  ((l.dropWhile Char.isWhitespace).reverse.dropWhile Char.isWhitespace).reverse

/-- The whitespace trim the validation code calls on its string value,
embedded over the code points. -/
def jsTrim (s : String) : String := String.mk (trimChars s.data)

/-- Embedding of validateString from packages/web/src/lib/validation.ts:
returns an error message, or none when the value is a non-empty string within
the maximum length. -/
def validateString (value : JsValue) (fieldName : String) (maxLength : Nat) :
    Option String :=
  match value with
  | .undef => some (fieldName ++ " is required")
  | .nullV => some (fieldName ++ " is required")
  | .other => some (fieldName ++ " must be a string")
  | .str s =>
    if (jsTrim s).length = 0 then some (fieldName ++ " must not be empty")
    else if s.length > maxLength then
      some (fieldName ++ " must be at most " ++ toString maxLength ++ " characters")
    else none

/-- One character of the identifier pattern [a-zA-Z0-9_-]. -/
def isIdentChar (c : Char) : Bool :=
  c.isAlphanum || c == '_' || c == '-'

/-- The regular expression test of validateIdentifier: the whole string is a
non-empty run of identifier characters. -/
def matchesIdentPattern (s : String) : Bool :=
  !s.data.isEmpty && s.data.all isIdentChar

/-- Embedding of validateIdentifier from packages/web/src/lib/validation.ts. -/
def validateIdentifier (value : JsValue) (fieldName : String)
    (maxLength : Nat := 128) : Option String :=
  match validateString value fieldName maxLength with
  | some e => some e
  | none =>
    if matchesIdentPattern (jsString value) then none
    else some (fieldName ++ " must match [a-zA-Z0-9_-]+")

/-- A character removed by stripControlChars: U+0000 to U+001F or U+007F to
U+009F. -/
def isStrippedControl (c : Char) : Bool :=
  c.toNat ≤ 0x1f || (0x7f ≤ c.toNat && c.toNat ≤ 0x9f)

/-- Embedding of stripControlChars from packages/web/src/lib/validation.ts:
deletes every control character in the two banned ranges. -/
def stripControlChars (value : String) : String :=
  String.mk (value.data.filter (fun c => !isStrippedControl c))

/-- The session record shape the mock-backed web routes read: only the status
and activity fields are consulted. -/
structure MockSession where
  status : String
  activity : String
deriving DecidableEq

/-- HTTP-level outcome of a web route. -/
inductive RouteResponse where
  | badRequest (error : String)
  | notFound (error : String)
  | conflict (error : String)
  | serverError (error : String)
  | ok (sessionId : String)
  | stream
deriving DecidableEq

/-- Embedding of POST /api/sessions/:id/kill: validate the id, look the
session up, succeed. The route does not mutate the session (wiring to the
core SessionManager is a TODO in the source). -/
def killRoute (id : String) (lookup : String → Option MockSession) :
    RouteResponse :=
  match validateIdentifier (.str id) "id" with
  | some e => .badRequest e
  | none =>
    match lookup id with
    | none => .notFound "Session not found"
    | some _ => .ok id

/-- RESTORABLE_STATUSES from the restore route. -/
def restorableStatuses : List String := ["killed", "cleanup"]

/-- RESTORABLE_ACTIVITIES from the restore route. -/
def restorableActivities : List String := ["exited"]

/-- NON_RESTORABLE_STATUSES from the restore route. -/
def nonRestorableStatuses : List String := ["merged"]

/-- Embedding of POST /api/sessions/:id/restore: validate the id, look the
session up, reject merged sessions, then require a restorable status or a
restorable activity. The route does not mutate the session. -/
def restoreRoute (id : String) (lookup : String → Option MockSession) :
    RouteResponse :=
  match validateIdentifier (.str id) "id" with
  | some e => .badRequest e
  | none =>
    match lookup id with
    | none => .notFound "Session not found"
    | some session =>
      if nonRestorableStatuses.contains session.status then
        .conflict "Cannot restore a merged session"
      else if restorableStatuses.contains session.status
          || restorableActivities.contains session.activity then
        .ok id
      else
        .conflict "Session is not in a terminal state"

/-- MAX_MESSAGE_LENGTH from the send route. -/
def maxMessageLength : Nat := 10000

/-- Outcome of the send route; the ok case carries the message the route
would hand to the runtime. -/
inductive SendResponse where
  | notFound (error : String)
  | badRequest (error : String)
  | ok (sessionId : String) (message : String)
deriving DecidableEq

/-- Embedding of POST /api/sessions/:id/send: look the session up, validate
the message (non-empty string, at most 10000 characters), then strip control
characters from the accepted message before it is used. -/
def sendRoute (id : String) (lookup : String → Option MockSession)
    (message : JsValue) : SendResponse :=
  match lookup id with
  | none => .notFound "Session not found"
  | some _ =>
    match validateString message "message" maxMessageLength with
    | some e => .badRequest e
    | none => .ok id (stripControlChars (jsString message))

/-- Embedding of GET /api/sessions/:id/terminal: validate the id, then load
the session (the lookup may throw, which the route maps to a 500), 404 when
absent, and only then open the SSE stream. -/
def terminalRoute (id : String)
    (lookup : String → Except String (Option MockSession)) : RouteResponse :=
  match validateIdentifier (.str id) "id" with
  | some e => .badRequest e
  | none =>
    match lookup id with
    | .error msg => .serverError msg
    | .ok none => .notFound ("Session " ++ id ++ " not found")
    | .ok (some _) => .stream

/-- The module-level poller state of the lifecycle-poller source file: the
optional running manager (carrying its tick interval), plus counters for how
many managers were ever created and stopped in this process. -/
structure PollerState where
  mgr : Option Nat
  created : Nat
  stoppedCount : Nat
deriving DecidableEq

/-- Embedding of startLifecyclePoller: when a manager is already running the
call returns immediately; otherwise it creates a manager and starts it with
the given interval. -/
def startLifecyclePoller (st : PollerState) (intervalMs : Nat := 10000) :
    PollerState :=
  match st.mgr with
  | some _ => st
  | none => { mgr := some intervalMs, created := st.created + 1,
              stoppedCount := st.stoppedCount }

/-- Embedding of stopLifecyclePoller: when a manager is running it is stopped
and the module-level reference is cleared; otherwise nothing happens. -/
def stopLifecyclePoller (st : PollerState) : PollerState :=
  match st.mgr with
  | some _ => { mgr := none, created := st.created,
                stoppedCount := st.stoppedCount + 1 }
  | none => st

/-- Modelled from the spec: the session lifecycle state set of section 4.5
(the SessionLifecycleStateMachine source is not under src/). -/
inductive SessionStatus where
  | spawning
  | working
  | waiting_review
  | pr_open
  | merged
  | blocked
  | exited
  | killed
  | archived
deriving DecidableEq

/-- Modelled from the spec: the per-tick agent-process liveness signal, with
an unavailable case for a dead collaborator query. -/
inductive AgentSignal where
  | alive
  | crashed
  | cleanExit
  | unavailable
deriving DecidableEq

/-- Modelled from the spec: the per-tick terminal busy or idle
classification, with an unavailable case. -/
inductive TerminalSignal where
  | busy
  | idle
  | unavailable
deriving DecidableEq

/-- Modelled from the spec: the per-tick pull-request observation, with an
unavailable case for an unreachable SCM collaborator. -/
inductive PrSignal where
  | absent
  | openPr
  | mergedPr
  | unavailable
deriving DecidableEq

/-- Modelled from the spec: the aggregated per-tick observations from all
collaborators for one session. -/
structure SignalBundle where
  agent : AgentSignal
  terminal : TerminalSignal
  pr : PrSignal
deriving DecidableEq

/-- The terminal states of section 4.5: merged, killed, archived. -/
def terminalStatus (s : SessionStatus) : Bool :=
  match s with
  | .merged => true
  | .killed => true
  | .archived => true
  | _ => false

/-- Modelled from the spec: the pure transition function of the
SessionLifecycleStateMachine (section 4.5), whose source is not under src/.
Terminal states absorb every bundle; a merged PR maps to merged and an open
PR to pr_open unconditionally; an unavailable required signal leaves the
state unchanged for the tick; otherwise spawning confirms to working when the
agent is live, working and waiting_review toggle on the busy or idle
classification while no PR exists, a crash maps to blocked and a clean exit
to exited, and killed is never produced from signals. -/
def lifecycleStep (s : SessionStatus) (b : SignalBundle) : SessionStatus :=
  match s with
  | .merged => .merged
  | .killed => .killed
  | .archived => .archived
  | _ =>
    match b.pr with
    | .mergedPr => .merged
    | .openPr => .pr_open
    | .unavailable => s
    | .absent =>
      match b.agent with
      | .unavailable => s
      | .crashed => .blocked
      | .cleanExit => .exited
      | .alive =>
        match s with
        | .spawning => .working
        | .working =>
          match b.terminal with
          | .idle => .waiting_review
          | .busy => .working
          | .unavailable => s
        | .waiting_review =>
          match b.terminal with
          | .busy => .working
          | .idle => .waiting_review
          | .unavailable => s
        | .blocked => .working
        | _ => s

/-- Modelled from the spec: the active and archived metadata record sets of
one namespace, each record keyed by (sessionPrefix, number); the
MetadataStore and SessionIdAllocator sources are not under src/. -/
structure RecordStore where
  active : List (String × Nat)
  archived : List (String × Nat)
deriving DecidableEq

/-- All records, active and archived, of a store. -/
def allRecords (st : RecordStore) : List (String × Nat) :=
  st.active ++ st.archived

/-- The session numbers recorded for one prefix across both record sets. -/
def numbersFor (st : RecordStore) (pfx : String) : List Nat :=
  (allRecords st).filterMap (fun r => if r.1 = pfx then some r.2 else none)

/-- Modelled from the spec: the allocator scans both record sets for the
prefix and takes the maximum existing number, treating an empty set as
zero. -/
def maxExisting (st : RecordStore) (pfx : String) : Nat :=
  (numbersFor st pfx).foldl max 0

/-- Modelled from the spec: a successful allocation claims max + 1. -/
def nextSessionNumber (st : RecordStore) (pfx : String) : Nat :=
  maxExisting st pfx + 1

/-- Modelled from the spec: the record-set mutations later operations can
perform — a spawn claims the next number for a prefix, an archive atomically
relocates one active record into the archive set. -/
inductive StoreOp where
  | spawn (pfx : String)
  | archiveRec (pfx : String) (n : Nat)

/-- Modelled from the spec: apply one store operation. A spawn adds the
freshly claimed record to the active set; an archive moves the record from
the active set to the archive set and is a no-op when the record is not
active. -/
def applyStoreOp (st : RecordStore) : StoreOp → RecordStore
  | .spawn pfx =>
    { st with active := (pfx, nextSessionNumber st pfx) :: st.active }
  | .archiveRec pfx n =>
    if (pfx, n) ∈ st.active then
      { active := st.active.filter (fun r => r ≠ (pfx, n)),
        archived := (pfx, n) :: st.archived }
    else st

/-- Apply a sequence of store operations. -/
def applyStoreOps (st : RecordStore) (ops : List StoreOp) : RecordStore :=
  ops.foldl applyStoreOp st

/-- Modelled from the spec: the state of one namespace directory as the
OriginGuard sees it — whether the directory exists and the origin marker
recording the resolved configuration path that created it (the OriginGuard
source is not under src/). -/
structure NamespaceDir where
  dirExists : Bool
  marker : Option String
deriving DecidableEq

/-- Outcome of an origin validation: success, or a collision error carrying
the expected configuration path, the actual configuration path, and the
namespace id. -/
inductive OriginResult where
  | ok
  | collision (expected : String) (actual : String) (namespaceId : String)
deriving DecidableEq

/-- Modelled from the spec: validateAndStoreOrigin (section 4.2). With no
marker present it creates the directory and writes a marker recording the
resolved configuration path; with a marker whose recorded path equals the
resolved path it succeeds silently; otherwise it fails with a collision
error carrying both paths and the namespace id, leaving the marker intact. -/
def validateAndStoreOrigin (namespaceId : String) (st : NamespaceDir)
    (configPath : String) : NamespaceDir × OriginResult :=
  match st.marker with
  | none => (⟨true, some configPath⟩, .ok)
  | some recorded =>
    if recorded = configPath then (st, .ok)
    else (st, .collision recorded configPath namespaceId)

/-- Modelled from the spec: one session record as the LifecyclePoller reads
it — its id, its stored status, and the soft-warning flag recorded when a
collaborator fails (the LifecycleManager source is not under src/). -/
structure PolledSession where
  sid : String
  status : SessionStatus
  warning : Bool
deriving DecidableEq

/-- Modelled from the spec: the per-session work of one poller tick. A
failure gathering the signal bundle is caught and recorded as a soft warning
on the record, leaving the status unchanged; on success the state machine is
applied. -/
def pollOne (gather : String → Except String SignalBundle)
    (r : PolledSession) : PolledSession :=
  match gather r.sid with
  | .error _ => { r with warning := true }
  | .ok b => { r with status := lifecycleStep r.status b }

/-- Modelled from the spec: one poller tick evaluates every session; a
collaborator failure on one session does not abort the rest. -/
def pollTick (gather : String → Except String SignalBundle)
    (rs : List PolledSession) : List PolledSession :=
  rs.map (pollOne gather)

/-- Modelled from the spec: one full session metadata record of the data
model in section 3 (the SessionManager source is not under src/). -/
structure SessionRecord where
  sid : String
  project : String
  number : Nat
  tmuxName : String
  issueRef : String
  branch : String
  worktreePath : String
  status : SessionStatus
  createdAt : String
deriving DecidableEq

/-- Modelled from the spec: the shared on-disk state the SessionManager
mutates — the session records plus the worktrees, the latter kept abstract
as path-content pairs. -/
structure ManagerState where
  sessions : List SessionRecord
  worktrees : List (String × String)
deriving DecidableEq

/-- Look a session up by id. -/
def findSession (st : ManagerState) (sid : String) : Option SessionRecord :=
  st.sessions.find? (fun r => r.sid == sid)

/-- Rewrite the status of the session with the given id, leaving every other
field and every other session unchanged. -/
def setStatus (st : ManagerState) (sid : String) (newStatus : SessionStatus) :
    ManagerState :=
  { st with
    sessions := st.sessions.map (fun r =>
      if r.sid == sid then { r with status := newStatus } else r) }

/-- Modelled from the spec: SessionManager.kill terminates the underlying
terminal session (delegated to a collaborator, outside this model),
transitions the record to killed, and preserves the worktree. -/
def killSession (st : ManagerState) (sid : String) : ManagerState :=
  setStatus st sid .killed

/-- Outcome of the modelled restore operation. -/
inductive RestoreOutcome where
  | restored (st : ManagerState)
  | invalidState
  | missing
deriving DecidableEq

/-- Modelled from the spec: SessionManager.restore is permitted only from
killed or exited and re-enters working; from any other state it fails with
an InvalidStateError, leaving the stored state unchanged. -/
def restoreSession (st : ManagerState) (sid : String) : RestoreOutcome :=
  match findSession st sid with
  | none => .missing
  | some r =>
    if r.status = .killed ∨ r.status = .exited then
      .restored (setStatus st sid .working)
    else .invalidState

/-- Truncate to a 32-bit word. -/
def w32 (n : Nat) : Nat := n % 4294967296

/-- Right rotation of a 32-bit word, written with division and remainder. -/
def rotr32 (n x : Nat) : Nat := w32 (x / 2 ^ n + x % 2 ^ n * 2 ^ (32 - n))

/-- Bitwise complement within 32 bits. -/
def bnot32 (x : Nat) : Nat := x ^^^ 4294967295

/-- The SHA-256 choice function. -/
def sha2Ch (x y z : Nat) : Nat := (x &&& y) ^^^ (bnot32 x &&& z)

/-- The SHA-256 majority function. -/
def sha2Maj (x y z : Nat) : Nat := (x &&& y) ^^^ (x &&& z) ^^^ (y &&& z)

/-- The SHA-256 big sigma-0 function. -/
def sigBig0 (x : Nat) : Nat := rotr32 2 x ^^^ rotr32 13 x ^^^ rotr32 22 x

/-- The SHA-256 big sigma-1 function. -/
def sigBig1 (x : Nat) : Nat := rotr32 6 x ^^^ rotr32 11 x ^^^ rotr32 25 x

/-- The SHA-256 small sigma-0 function. -/
def sigSmall0 (x : Nat) : Nat := rotr32 7 x ^^^ rotr32 18 x ^^^ x / 2 ^ 3

/-- The SHA-256 small sigma-1 function. -/
def sigSmall1 (x : Nat) : Nat := rotr32 17 x ^^^ rotr32 19 x ^^^ x / 2 ^ 10

/-- The eight 32-bit words of a SHA-256 chaining value. -/
structure Hash8 where
  a : Nat
  b : Nat
  c : Nat
  d : Nat
  e : Nat
  f : Nat
  g : Nat
  h : Nat
deriving DecidableEq

/-- The SHA-256 initial chaining value, written in decimal. -/
def sha2Init : Hash8 :=
  ⟨1779033703, 3144134277, 1013904242, 2773480762,
   1359893119, 2600822924, 528734635, 1541459225⟩

/-- The 64 SHA-256 round constants, written in decimal. -/
def sha2K : List Nat :=
  [1116352408, 1899447441, 3049323471, 3921009573,
   961987163, 1508970993, 2453635748, 2870763221,
   3624381080, 310598401, 607225278, 1426881987,
   1925078388, 2162078206, 2614888103, 3248222580,
   3835390401, 4022224774, 264347078, 604807628,
   770255983, 1249150122, 1555081692, 1996064986,
   2554220882, 2821834349, 2952996808, 3210313671,
   3336571891, 3584528711, 113926993, 338241895,
   666307205, 773529912, 1294757372, 1396182291,
   1695183700, 1986661051, 2177026350, 2456956037,
   2730485921, 2820302411, 3259730800, 3345764771,
   3516065817, 3600352804, 4094571909, 275423344,
   430227734, 506948616, 659060556, 883997877,
   958139571, 1322822218, 1537002063, 1747873779,
   1955562222, 2024104815, 2227730452, 2361852424,
   2428436474, 2756734187, 3204031479, 3329325298]

/-- Pack big-endian byte quadruples into 32-bit words. -/
def toWords32 : List Nat → List Nat
  | b0 :: b1 :: b2 :: b3 :: rest =>
    (((b0 * 256 + b1) * 256 + b2) * 256 + b3) :: toWords32 rest
  | _ => []

/-- Extend a message schedule by one word. -/
def extendSchedule (ws : List Nat) : List Nat :=
  ws ++ [w32 (sigSmall1 (ws.getD (ws.length - 2) 0) + ws.getD (ws.length - 7) 0
    + sigSmall0 (ws.getD (ws.length - 15) 0) + ws.getD (ws.length - 16) 0)]

/-- The 64-word SHA-256 message schedule of one block. -/
def messageSchedule (ws : List Nat) : List Nat :=
  (List.range 48).foldl (fun acc _ => extendSchedule acc) ws

/-- One SHA-256 compression round over a (round constant, schedule word)
pair. -/
def roundStep (st : Hash8) (kw : Nat × Nat) : Hash8 :=
  let t1 := w32 (st.h + sigBig1 st.e + sha2Ch st.e st.f st.g + kw.1 + kw.2)
  let t2 := w32 (sigBig0 st.a + sha2Maj st.a st.b st.c)
  ⟨w32 (t1 + t2), st.a, st.b, st.c, w32 (st.d + t1), st.e, st.f, st.g⟩

/-- Compress one 64-byte block into the chaining value. -/
def compressBlock (hv : Hash8) (block : List Nat) : Hash8 :=
  let ws := messageSchedule (toWords32 block)
  let st := (sha2K.zip ws).foldl roundStep hv
  ⟨w32 (hv.a + st.a), w32 (hv.b + st.b), w32 (hv.c + st.c), w32 (hv.d + st.d),
   w32 (hv.e + st.e), w32 (hv.f + st.f), w32 (hv.g + st.g), w32 (hv.h + st.h)⟩

/-- The eight big-endian bytes of a 64-bit length field. -/
def lengthBytes64 (n : Nat) : List Nat :=
  [n / 2 ^ 56 % 256, n / 2 ^ 48 % 256, n / 2 ^ 40 % 256, n / 2 ^ 32 % 256,
   n / 2 ^ 24 % 256, n / 2 ^ 16 % 256, n / 2 ^ 8 % 256, n % 256]

/-- SHA-256 padding: a 0x80 byte, zeros up to 56 modulo 64, then the bit
length as eight big-endian bytes. -/
def padMessage (msg : List Nat) : List Nat :=
  msg ++ 128 :: List.replicate ((119 - msg.length % 64) % 64) 0
    ++ lengthBytes64 (8 * msg.length)

/-- Split a byte list into 64-byte blocks. -/
def chunks64 (l : List Nat) : List (List Nat) :=
  if _h : l.isEmpty then [] else l.take 64 :: chunks64 (l.drop 64)
termination_by l.length
decreasing_by
  simp only [List.isEmpty_eq_true] at _h
  simp only [List.length_drop]
  exact Nat.sub_lt (List.length_pos.mpr _h) (by decide)

/-- The four big-endian bytes of a 32-bit word. -/
def wordBytes (w : Nat) : List Nat :=
  [w / 2 ^ 24 % 256, w / 2 ^ 16 % 256, w / 2 ^ 8 % 256, w % 256]

/-- SHA-256 of a byte list, as a 32-byte digest. -/
def sha256 (msg : List Nat) : List Nat :=
  let hv := (chunks64 (padMessage msg)).foldl compressBlock sha2Init
  wordBytes hv.a ++ wordBytes hv.b ++ wordBytes hv.c ++ wordBytes hv.d ++
  wordBytes hv.e ++ wordBytes hv.f ++ wordBytes hv.g ++ wordBytes hv.h

/-- The sixteen lowercase hexadecimal digit characters. -/
def hexDigits : List Char := "0123456789abcdef".data

/-- The lowercase hexadecimal digit of a nibble. -/
def hexChar (n : Nat) : Char := hexDigits.getD (n % 16) '0'

/-- Lowercase hexadecimal rendering of a byte list, two digits per byte. -/
def bytesToHex : List Nat → List Char
  | [] => []
  | b :: rest => hexChar (b / 16) :: hexChar b :: bytesToHex rest

/-- Modelled from the spec: paths are embedded as their segment lists (the
HashNamespace and path-resolution sources are not under src/); a segment may
still be empty (a trailing or doubled slash), a dot, or a dot-dot. -/
def GoodSeg (s : String) : Prop := s ≠ "" ∧ s ≠ "." ∧ s ≠ ".."

instance (s : String) : Decidable (GoodSeg s) := by
  unfold GoodSeg
  infer_instance

/-- One step of canonicalization over a reversed segment stack: empty and
dot segments vanish, a dot-dot pops the last real segment (at the root it is
a no-op, as realpath treats the parent of the root as the root), and any
other segment is kept. -/
def canonStep (stack : List String) (seg : String) : List String :=
  if seg = "" ∨ seg = "." then stack
  else if seg = ".." then stack.tail
  else seg :: stack

/-- Modelled from the spec: canonicalization of an absolute directory path —
trailing slashes and dot or dot-dot segments all normalize away, matching
the canonical form realpath returns for a symlink-free path. -/
def canonicalizePath (p : List String) : List String :=
  (p.foldl canonStep []).reverse

/-- Render a canonical absolute path from its segments. -/
def renderPath (segs : List String) : String :=
  segs.foldl (fun acc s => acc ++ "/" ++ s) ""

/-- The UTF-8 bytes of a string. -/
def pathBytes (s : String) : List Nat :=
  s.toUTF8.toList.map (fun b => b.toNat)

/-- Modelled from the spec: the namespace id is the first 12 characters of
the SHA-256 hex digest of the canonical form of the configuration
directory. -/
def generateConfigHash (configDir : List String) : String :=
  String.mk ((bytesToHex (sha256 (pathBytes
    (renderPath (canonicalizePath configDir))))).take 12)

/-- Whether a route response is an HTTP 400. -/
def isBadRequest : RouteResponse → Bool
  | .badRequest _ => true
  | _ => false

/-- A lookup that always finds the same session, for concrete route runs. -/
def constLookup (sess : MockSession) : String → Option MockSession :=
  fun _ => some sess

/-- A lookup that never finds a session, for concrete route runs. -/
def noLookup : String → Option MockSession := fun _ => none

/-- A throwing session load, for concrete terminal-route runs. -/
def failLookupE : String → Except String (Option MockSession) :=
  fun _ => Except.error "boom"

/-- A killed session fixture. -/
def killedSession : MockSession := ⟨"killed", "active"⟩

/-- A signal gatherer whose tracker collaborator is unreachable for session
s1 only, for concrete poller-tick runs. -/
def mixedGather : String → Except String SignalBundle :=
  fun sid =>
    if sid = "s1" then Except.error "tracker unreachable"
    else Except.ok ⟨.alive, .busy, .absent⟩

/-- A concrete session record fixture. -/
def be1 : SessionRecord :=
  ⟨"be-1", "backend", 1, "a3b4c5d6e7f8-be-1", "INT-100", "feat/INT-100",
   "/data/worktrees/be-1", .working, "2026-02-17T10:30:00Z"⟩

/-- A concrete manager state holding just be-1 and its worktree. -/
def mgrState1 : ManagerState :=
  ⟨[be1], [("/data/worktrees/be-1", "tree")]⟩

/-! Theorems. Helper lemmas come first, each claim's theorem carries the
claim id in its doc comment. -/

theorem base_le_foldl_max : ∀ (l : List Nat) (a : Nat), a ≤ l.foldl max a
  | [], a => le_refl a
  | b :: l, a => le_trans (le_max_left a b) (base_le_foldl_max l (max a b))

theorem mem_le_foldl_max (l : List Nat) : ∀ (a n : Nat), n ∈ l → n ≤ l.foldl max a := by
  induction l with
  | nil => intro a n h; cases h
  | cons b t ih =>
    intro a n h
    rcases List.mem_cons.mp h with rfl | ht
    · exact le_trans (le_max_right a n) (base_le_foldl_max t (max a n))
    · exact ih (max a b) n ht

theorem mem_numbersFor (st : RecordStore) (pfx : String) (n : Nat)
    (h : (pfx, n) ∈ allRecords st) : n ∈ numbersFor st pfx := by
  unfold numbersFor
  exact List.mem_filterMap.mpr ⟨(pfx, n), h, by simp⟩

theorem lt_nextSessionNumber (st : RecordStore) (pfx : String) (n : Nat)
    (h : (pfx, n) ∈ allRecords st) : n < nextSessionNumber st pfx :=
  Nat.lt_succ_of_le (mem_le_foldl_max _ 0 n (mem_numbersFor st pfx n h))

theorem mem_allRecords_applyStoreOp (st : RecordStore) (op : StoreOp)
    (p : String × Nat) (h : p ∈ allRecords st) :
    p ∈ allRecords (applyStoreOp st op) := by
  unfold allRecords at h
  rw [List.mem_append] at h
  cases op with
  | spawn pfx =>
    show p ∈ (pfx, nextSessionNumber st pfx) :: st.active ++ st.archived
    rw [List.cons_append, List.mem_cons, List.mem_append]
    rcases h with h | h
    · exact Or.inr (Or.inl h)
    · exact Or.inr (Or.inr h)
  | archiveRec pfx n =>
    by_cases hm : (pfx, n) ∈ st.active
    · show p ∈ allRecords (if (pfx, n) ∈ st.active then _ else st)
      rw [if_pos hm]
      show p ∈ st.active.filter (fun r => r ≠ (pfx, n)) ++ (pfx, n) :: st.archived
      rw [List.mem_append, List.mem_cons]
      rcases h with h | h
      · by_cases hp : p = (pfx, n)
        · exact Or.inr (Or.inl hp)
        · exact Or.inl (List.mem_filter.mpr ⟨h, by simpa using hp⟩)
      · exact Or.inr (Or.inr h)
    · show p ∈ allRecords (if (pfx, n) ∈ st.active then _ else st)
      rw [if_neg hm]
      unfold allRecords
      rw [List.mem_append]
      exact h

theorem mem_allRecords_applyStoreOps (st : RecordStore) (ops : List StoreOp)
    (p : String × Nat) (h : p ∈ allRecords st) :
    p ∈ allRecords (applyStoreOps st ops) := by
  induction ops generalizing st with
  | nil => exact h
  | cons op rest ih =>
    exact ih (applyStoreOp st op) (mem_allRecords_applyStoreOp st op p h)

/-- C1: a successful allocation returns a number strictly greater than every
number already recorded for that prefix in the union of the active and
archived record sets, and this stays true after any further sequence of
spawn and archive operations — in particular an archived number such as
prefix-3 is never returned by a later spawn. -/
theorem sessionNumbers_strictly_increase (st : RecordStore) (pfx : String)
    (n : Nat) (ops : List StoreOp) (h : (pfx, n) ∈ allRecords st) :
    n < nextSessionNumber (applyStoreOps st ops) pfx :=
  lt_nextSessionNumber _ pfx n (mem_allRecords_applyStoreOps st ops (pfx, n) h)

/-- Witness for C1: with prefix-3 already archived, the number claimed after
one more archive and spawn is still above 3. -/
theorem sessionNumbers_strictly_increase_witness :
    3 < nextSessionNumber
      (applyStoreOps ⟨[("be", 4)], [("be", 3)]⟩
        [StoreOp.archiveRec "be" 4, StoreOp.spawn "be"]) "be" :=
  sessionNumbers_strictly_increase ⟨[("be", 4)], [("be", 3)]⟩ "be" 3
    [StoreOp.archiveRec "be" 4, StoreOp.spawn "be"] (by decide)

/-- C2: the lifecycle state machine never leaves a terminal state: for every
signal bundle, merged, killed and archived step to themselves. -/
theorem lifecycleStep_terminal_absorbing :
    (∀ b : SignalBundle, lifecycleStep .merged b = .merged)
    ∧ (∀ b : SignalBundle, lifecycleStep .killed b = .killed)
    ∧ (∀ b : SignalBundle, lifecycleStep .archived b = .archived) :=
  ⟨fun _ => rfl, fun _ => rfl, fun _ => rfl⟩

/-- C3: the first caller of a namespace directory creates it and records its
configuration path in the marker; a later caller with the same resolved
path succeeds silently; a later caller with a different path fails with a
collision error carrying the expected path, the actual path and the
namespace id; and the recorded marker is never overwritten. -/
theorem originGuard_first_writer_wins (nsId : String) (st : NamespaceDir)
    (p q r : String) :
    (st.marker = none →
      validateAndStoreOrigin nsId st p = (⟨true, some p⟩, .ok))
    ∧ (st.marker = some p → validateAndStoreOrigin nsId st p = (st, .ok))
    ∧ (st.marker = some p → q ≠ p →
        validateAndStoreOrigin nsId st q = (st, .collision p q nsId))
    ∧ (st.marker = some r →
        (validateAndStoreOrigin nsId st q).1.marker = some r) := by
  refine ⟨?_, ?_, ?_, ?_⟩
  · intro h
    simp [validateAndStoreOrigin, h]
  · intro h
    simp [validateAndStoreOrigin, h]
  · intro h hq
    simp [validateAndStoreOrigin, h, Ne.symm hq]
  · intro h
    simp only [validateAndStoreOrigin, h]
    by_cases hq : r = q
    · rw [if_pos hq]
      exact h
    · rw [if_neg hq]
      exact h

/-- Witness for C3: a second configuration hitting an already-claimed
namespace directory is rejected with the collision error. -/
theorem originGuard_first_writer_wins_witness :
    validateAndStoreOrigin "a3b4c5d6e7f8" ⟨true, some "/cfg1/agent-orchestrator.yaml"⟩
        "/cfg2/agent-orchestrator.yaml"
      = (⟨true, some "/cfg1/agent-orchestrator.yaml"⟩,
         .collision "/cfg1/agent-orchestrator.yaml" "/cfg2/agent-orchestrator.yaml"
           "a3b4c5d6e7f8") :=
  (originGuard_first_writer_wins "a3b4c5d6e7f8"
      ⟨true, some "/cfg1/agent-orchestrator.yaml"⟩
      "/cfg1/agent-orchestrator.yaml" "/cfg2/agent-orchestrator.yaml"
      "x").2.2.1 rfl (by decide)

/-- C7: starting the lifecycle poller twice is a no-op (no second manager is
created and the interval is unchanged); stop clears the running manager,
stopping it when one runs, and a start after stop creates a fresh
manager. -/
theorem lifecyclePoller_start_idempotent (st : PollerState) (i j : Nat) :
    startLifecyclePoller (startLifecyclePoller st i) j = startLifecyclePoller st i
    ∧ (stopLifecyclePoller st).mgr = none
    ∧ (st.mgr.isSome = true →
        (stopLifecyclePoller st).stoppedCount = st.stoppedCount + 1)
    ∧ (startLifecyclePoller (stopLifecyclePoller st) j).mgr = some j
    ∧ (startLifecyclePoller (stopLifecyclePoller st) j).created = st.created + 1 := by
  obtain ⟨mgr, created, stopped⟩ := st
  cases mgr <;> simp [startLifecyclePoller, stopLifecyclePoller]

/-- Witness for C7: stopping a running poller records the stop. -/
theorem lifecyclePoller_start_idempotent_witness :
    (stopLifecyclePoller ⟨some 10000, 1, 0⟩).stoppedCount = 0 + 1 :=
  (lifecyclePoller_start_idempotent ⟨some 10000, 1, 0⟩ 5 7).2.2.1 (by decide)

/-- C6: during one poller tick, a collaborator error while gathering the
signal bundle of one session leaves that session's stored status unchanged
and records the soft-warning flag, and every other session of the tick is
still evaluated and persisted through the same per-session step — the tick
is not aborted. -/
theorem pollTick_isolates_collaborator_failure
    (gather : String → Except String SignalBundle) (rs : List PolledSession)
    (i : Nat) (r : PolledSession) (e : String)
    (hr : rs[i]? = some r) (he : gather r.sid = .error e) :
    (pollTick gather rs)[i]? = some { r with warning := true }
    ∧ ({ r with warning := true } : PolledSession).status = r.status
    ∧ (∀ (j : Nat) (s : PolledSession), rs[j]? = some s →
        (pollTick gather rs)[j]? = some (pollOne gather s)) := by
  refine ⟨?_, rfl, ?_⟩
  · rw [pollTick, List.getElem?_map _ rs i, hr]
    simp [pollOne, he]
  · intro j s hs
    rw [pollTick, List.getElem?_map _ rs j, hs]
    rfl

/-- Witness for C6: with the tracker unreachable for s1 only, s1 keeps its
working status and gains the warning flag. -/
theorem pollTick_isolates_collaborator_failure_witness :
    (pollTick mixedGather [⟨"s1", .working, false⟩, ⟨"s2", .spawning, false⟩])[0]?
      = some ⟨"s1", .working, true⟩ :=
  (pollTick_isolates_collaborator_failure mixedGather
    [⟨"s1", .working, false⟩, ⟨"s2", .spawning, false⟩] 0
    ⟨"s1", .working, false⟩ "tracker unreachable" (by decide) rfl).1

theorem find?_map_setStatus (l : List SessionRecord) (sid : String)
    (ns : SessionStatus) :
    (l.map (fun r => if r.sid == sid then { r with status := ns } else r)).find?
        (fun r => r.sid == sid)
      = (l.find? (fun r => r.sid == sid)).map
          (fun r => { r with status := ns }) := by
  induction l with
  | nil => rfl
  | cons r t ih =>
    by_cases h : r.sid = sid
    · have hhead : (if r.sid == sid then { r with status := ns } else r)
          = { r with status := ns } := by simp [h]
      rw [List.map_cons, hhead]
      rw [@List.find?_cons_of_pos SessionRecord (fun x => x.sid == sid)
        { r with status := ns } _ (by simp [h])]
      rw [@List.find?_cons_of_pos SessionRecord (fun x => x.sid == sid) r _
        (by simp [h])]
      rfl
    · have hhead : (if r.sid == sid then { r with status := ns } else r) = r := by
        simp [h]
      rw [List.map_cons, hhead]
      rw [@List.find?_cons_of_neg SessionRecord (fun x => x.sid == sid) r _
        (by simp [h])]
      rw [@List.find?_cons_of_neg SessionRecord (fun x => x.sid == sid) r _
        (by simp [h])]
      rw [ih]

theorem findSession_setStatus (st : ManagerState) (sid : String)
    (ns : SessionStatus) :
    findSession (setStatus st sid ns) sid
      = (findSession st sid).map (fun r => { r with status := ns }) := by
  unfold findSession setStatus
  exact find?_map_setStatus st.sessions sid ns

/-- C8: killing a session in a non-terminal state sets exactly its status to
killed — every other field of its record, every other session, and the
worktrees on disk are unchanged — and a subsequent restore of the same
session succeeds and re-enters working. -/
theorem killSession_frame_and_restore (st : ManagerState) (sid : String)
    (r : SessionRecord) (hfind : findSession st sid = some r)
    (_hterm : terminalStatus r.status = false) :
    findSession (killSession st sid) sid = some { r with status := .killed }
    ∧ (killSession st sid).worktrees = st.worktrees
    ∧ (∀ r2 ∈ st.sessions, r2.sid ≠ sid → r2 ∈ (killSession st sid).sessions)
    ∧ restoreSession (killSession st sid) sid
        = .restored (setStatus (killSession st sid) sid .working)
    ∧ findSession (setStatus (killSession st sid) sid .working) sid
        = some { r with status := .working } := by
  have hkill : findSession (killSession st sid) sid
      = some { r with status := SessionStatus.killed } := by
    unfold killSession
    rw [findSession_setStatus, hfind]
    rfl
  refine ⟨hkill, rfl, ?_, ?_, ?_⟩
  · intro r2 hmem hne
    refine List.mem_map.mpr ⟨r2, hmem, ?_⟩
    simp [hne]
  · unfold restoreSession
    rw [hkill]
    simp
  · unfold killSession
    rw [findSession_setStatus, findSession_setStatus, hfind]
    rfl

/-- Witness for C8: killing the working session be-1 yields its record with
status killed and nothing else changed. -/
theorem killSession_frame_and_restore_witness :
    findSession (killSession mgrState1 "be-1") "be-1"
      = some { be1 with status := .killed } :=
  (killSession_frame_and_restore mgrState1 "be-1" be1 (by decide) (by decide)).1

theorem goodSeg_canonStep (stack : List String) (seg : String)
    (hs : ∀ s ∈ stack, GoodSeg s) : ∀ s ∈ canonStep stack seg, GoodSeg s := by
  unfold canonStep
  split_ifs with h1 h2
  · exact hs
  · intro s hsm
    exact hs s (List.mem_of_mem_tail hsm)
  · intro s hsm
    rcases List.mem_cons.mp hsm with rfl | hm
    · exact ⟨fun hc => h1 (Or.inl hc), fun hc => h1 (Or.inr hc), h2⟩
    · exact hs s hm

theorem goodSeg_foldl_canonStep (p : List String) :
    ∀ stack : List String, (∀ s ∈ stack, GoodSeg s) →
      ∀ s ∈ p.foldl canonStep stack, GoodSeg s := by
  induction p with
  | nil =>
    intro stack hs
    simpa using hs
  | cons x t ih =>
    intro stack hs
    exact ih (canonStep stack x) (goodSeg_canonStep stack x hs)

theorem foldl_canonStep_of_good (p : List String) :
    ∀ stack : List String, (∀ s ∈ p, GoodSeg s) →
      p.foldl canonStep stack = p.reverse ++ stack := by
  induction p with
  | nil =>
    intro stack _
    simp
  | cons x t ih =>
    intro stack hp
    have hx : GoodSeg x := hp x (by simp)
    have hstep : canonStep stack x = x :: stack := by
      simp [canonStep, hx.1, hx.2.1, hx.2.2]
    rw [List.foldl_cons, hstep,
      ih (x :: stack) (fun s hs => hp s (List.mem_cons_of_mem x hs))]
    simp

theorem canonicalizePath_idem (p : List String) :
    canonicalizePath (canonicalizePath p) = canonicalizePath p := by
  unfold canonicalizePath
  have hgood : ∀ s ∈ (p.foldl canonStep []).reverse, GoodSeg s := by
    intro s hs
    exact goodSeg_foldl_canonStep p [] (by simp) s (List.mem_reverse.mp hs)
  rw [foldl_canonStep_of_good _ [] hgood]
  simp

theorem length_bytesToHex (l : List Nat) :
    (bytesToHex l).length = 2 * l.length := by
  induction l with
  | nil => rfl
  | cons b t ih =>
    simp only [bytesToHex, List.length_cons, ih]
    ring

theorem getD_mem_of_lt : ∀ (l : List Char) (n : Nat) (d : Char),
    n < l.length → l.getD n d ∈ l := by
  intro l
  induction l with
  | nil =>
    intro n d h
    simp at h
  | cons a t ih =>
    intro n d h
    cases n with
    | zero => exact List.mem_cons_self a t
    | succ m =>
      have : t.getD m d ∈ t := ih m d (by simpa using Nat.lt_of_succ_lt_succ h)
      simpa [List.getD] using Or.inr this

theorem hexChar_mem (n : Nat) : hexChar n ∈ hexDigits := by
  unfold hexChar
  refine getD_mem_of_lt hexDigits (n % 16) '0' ?_
  rw [show hexDigits.length = 16 from rfl]
  exact Nat.mod_lt n (show 0 < 16 by decide)

theorem mem_bytesToHex (l : List Nat) (c : Char) (h : c ∈ bytesToHex l) :
    c ∈ hexDigits := by
  induction l with
  | nil => cases h
  | cons b t ih =>
    rcases List.mem_cons.mp h with rfl | h2
    · exact hexChar_mem _
    · rcases List.mem_cons.mp h2 with rfl | h3
      · exact hexChar_mem _
      · exact ih h3

theorem length_sha256 (msg : List Nat) : (sha256 msg).length = 32 := by
  simp [sha256, wordBytes]

/-- C4: the namespace id of a configuration directory is the first 12
characters of the SHA-256 hex digest of its canonical form: it is always a
12-character string over the lowercase hexadecimal alphabet, hashing a
directory and hashing its canonical form give the same id, and two
directories with the same canonical form always receive the same id. -/
theorem generateConfigHash_deterministic_hex (d d1 d2 : List String)
    (hc : canonicalizePath d1 = canonicalizePath d2) :
    (generateConfigHash d).length = 12
    ∧ (∀ c ∈ (generateConfigHash d).data, c ∈ hexDigits)
    ∧ generateConfigHash d = generateConfigHash (canonicalizePath d)
    ∧ generateConfigHash d1 = generateConfigHash d2 := by
  refine ⟨?_, ?_, ?_, ?_⟩
  · show (List.take 12 (bytesToHex (sha256 _))).length = 12
    rw [List.length_take, length_bytesToHex, length_sha256]
    decide
  · intro c hcm
    have hcm2 : c ∈ List.take 12 (bytesToHex (sha256 (pathBytes
        (renderPath (canonicalizePath d))))) := hcm
    exact mem_bytesToHex _ c (List.take_subset 12 _ hcm2)
  · unfold generateConfigHash
    rw [canonicalizePath_idem]
  · unfold generateConfigHash
    rw [hc]

/-- Witness for C4: a path with a dot-dot segment and a trailing slash and
its plain spelling receive the same namespace id. -/
theorem generateConfigHash_deterministic_hex_witness :
    generateConfigHash ["home", "u", "x", "..", "proj", ""]
      = generateConfigHash ["home", "u", ".", "proj"] :=
  (generateConfigHash_deterministic_hex [] ["home", "u", "x", "..", "proj", ""]
    ["home", "u", ".", "proj"] (by decide)).2.2.2

/-- C5 counterexample: the restore route does not succeed exactly from
killed or exited — a session whose status is exited (with a non-exited
activity) is rejected as not terminal, and a session whose status is cleanup
(neither killed nor exited) is restored. -/
theorem restoreRoute_exited_counterexample :
    restoreRoute "be-1" (constLookup ⟨"exited", "idle"⟩)
      = .conflict "Session is not in a terminal state"
    ∧ restoreRoute "be-1" (constLookup ⟨"cleanup", "idle"⟩) = .ok "be-1"
    ∧ ¬("exited" = "killed" ∨ "exited" = "exited" → False)
    ∧ ¬("cleanup" = "killed" ∨ "cleanup" = "exited") := by
  refine ⟨by decide, by decide, ?_, by decide⟩
  intro h
  exact h (Or.inr rfl)

/-- C5 amended: for a found session behind a valid id, the restore route
succeeds exactly when the status is not merged and either the status is
killed or cleanup or the recorded activity is exited; a merged status gets
the 409 merged conflict, any other non-restorable combination gets the 409
not-terminal conflict, and the route never mutates the stored record (core
wiring is a TODO in the source). -/
theorem restoreRoute_success_iff (sess : MockSession) (id : String)
    (hid : validateIdentifier (.str id) "id" = none) :
    (restoreRoute id (constLookup sess) = .ok id ↔
      (sess.status ≠ "merged" ∧ (sess.status = "killed"
        ∨ sess.status = "cleanup" ∨ sess.activity = "exited")))
    ∧ (sess.status = "merged" →
        restoreRoute id (constLookup sess)
          = .conflict "Cannot restore a merged session")
    ∧ (sess.status ≠ "merged" → sess.status ≠ "killed" →
        sess.status ≠ "cleanup" → sess.activity ≠ "exited" →
        restoreRoute id (constLookup sess)
          = .conflict "Session is not in a terminal state") := by
  have hroute : restoreRoute id (constLookup sess)
      = (if nonRestorableStatuses.contains sess.status then
          .conflict "Cannot restore a merged session"
        else if restorableStatuses.contains sess.status
            || restorableActivities.contains sess.activity then
          RouteResponse.ok id
        else .conflict "Session is not in a terminal state") := by
    unfold restoreRoute constLookup
    rw [hid]
  rw [hroute]
  by_cases h1 : sess.status = "merged" <;>
    by_cases h2 : sess.status = "killed" <;>
      by_cases h3 : sess.status = "cleanup" <;>
        by_cases h4 : sess.activity = "exited" <;>
          simp_all [restorableStatuses, nonRestorableStatuses,
            restorableActivities]

/-- Witness for C5 (amended): a killed session behind a valid id is
restored. -/
theorem restoreRoute_success_iff_witness :
    restoreRoute "be-1" (constLookup killedSession) = .ok "be-1" :=
  (restoreRoute_success_iff killedSession "be-1" (by decide)).1.mpr (by decide)

theorem not_isStrippedControl_of_mem_strip (s : String) (c : Char)
    (h : c ∈ (stripControlChars s).data) : isStrippedControl c = false := by
  have h2 : c ∈ s.data.filter (fun c => !isStrippedControl c) := h
  have h3 := List.mem_filter.mp h2
  simpa using h3.2

theorem filter_idem (p : Char → Bool) (l : List Char) :
    (l.filter p).filter p = l.filter p := by
  induction l with
  | nil => rfl
  | cons a t ih =>
    by_cases h : p a = true
    · simp [List.filter_cons, h, ih]
    · simp [List.filter_cons, h, ih]

/-- C9: validateIdentifier accepts exactly the strings that are non-empty
after trimming, at most 128 characters, and made only of the characters
[a-zA-Z0-9_-]; consequently any id containing a slash, a dot or whitespace
is rejected, and the kill, restore and terminal routes answer HTTP 400 for
such an id regardless of the session lookup — before any lookup happens. -/
theorem validateIdentifier_characterization (v : JsValue) (fld : String) :
    (validateIdentifier v fld = none ↔
      ∃ s, v = .str s ∧ (jsTrim s).length ≠ 0 ∧ s.length ≤ 128
        ∧ matchesIdentPattern s = true)
    ∧ (∀ (id : String) (c : Char), c ∈ id.data →
        (c = '/' ∨ c = '.' ∨ c.isWhitespace = true) →
        (validateIdentifier (.str id) "id").isSome = true
        ∧ (∀ lk : String → Option MockSession,
            isBadRequest (killRoute id lk) = true)
        ∧ (∀ lk : String → Option MockSession,
            isBadRequest (restoreRoute id lk) = true)
        ∧ (∀ lk : String → Except String (Option MockSession),
            isBadRequest (terminalRoute id lk) = true)) := by
  constructor
  · cases v with
    | undef => simp [validateIdentifier, validateString]
    | nullV => simp [validateIdentifier, validateString]
    | other => simp [validateIdentifier, validateString]
    | str s =>
      by_cases h1 : (jsTrim s).length = 0
      · simp [validateIdentifier, validateString, h1]
      · by_cases h2 : s.length > 128
        · have h2b : ¬s.length ≤ 128 := by omega
          simp [validateIdentifier, validateString, h1, h2, h2b]
        · have h2b : s.length ≤ 128 := by omega
          by_cases h3 : matchesIdentPattern s = true
          · simp [validateIdentifier, validateString, h1, h2, h2b, h3, jsString]
          · simp [validateIdentifier, validateString, h1, h2, h2b, h3, jsString]
  · intro id c hcmem hcase
    have hbad : isIdentChar c = false := by
      rcases hcase with rfl | rfl | hw
      · decide
      · decide
      · simp only [Char.isWhitespace] at hw
        simp only [Bool.or_eq_true, decide_eq_true_eq] at hw
        rcases hw with ((rfl | rfl) | rfl) | rfl <;> decide
    have hall : id.data.all isIdentChar = false := by
      by_cases hm : id.data.all isIdentChar = true
      · exfalso
        have hc2 := List.all_eq_true.mp hm c hcmem
        rw [hbad] at hc2
        cases hc2
      · simpa using hm
    have hpat : matchesIdentPattern id = false := by
      unfold matchesIdentPattern
      rw [hall, Bool.and_false]
    have hvi : (validateIdentifier (.str id) "id").isSome = true := by
      unfold validateIdentifier
      cases hvs : validateString (.str id) "id" 128 with
      | some e => rfl
      | none => simp [jsString, hpat]
    refine ⟨hvi, ?_, ?_, ?_⟩
    · intro lk
      cases hvs2 : validateIdentifier (.str id) "id" with
      | some e => simp [killRoute, hvs2, isBadRequest]
      | none =>
        rw [hvs2] at hvi
        cases hvi
    · intro lk
      cases hvs2 : validateIdentifier (.str id) "id" with
      | some e => simp [restoreRoute, hvs2, isBadRequest]
      | none =>
        rw [hvs2] at hvi
        cases hvi
    · intro lk
      cases hvs2 : validateIdentifier (.str id) "id" with
      | some e => simp [terminalRoute, hvs2, isBadRequest]
      | none =>
        rw [hvs2] at hvi
        cases hvi

/-- Witness for C9: the id be/1 containing a slash makes the kill route
answer 400 without consulting the lookup. -/
theorem validateIdentifier_characterization_witness :
    isBadRequest (killRoute "be/1" noLookup) = true :=
  (((validateIdentifier_characterization JsValue.other "x").2 "be/1" '/'
    (by decide) (Or.inl rfl)).2.1) noLookup

/-- C10: stripControlChars leaves no character of the two control ranges,
it is idempotent, and every message the send route accepts is stripped
before use, so an accepted message carries no control character. -/
theorem stripControlChars_no_controls (s : String) :
    (∀ c ∈ (stripControlChars s).data, isStrippedControl c = false)
    ∧ stripControlChars (stripControlChars s) = stripControlChars s
    ∧ (∀ (id : String) (lk : String → Option MockSession) (msg : JsValue)
        (sid m : String), sendRoute id lk msg = .ok sid m →
        ∀ c ∈ m.data, isStrippedControl c = false) := by
  refine ⟨?_, ?_, ?_⟩
  · intro c hc
    exact not_isStrippedControl_of_mem_strip s c hc
  · show String.mk ((s.data.filter _).filter _) = String.mk (s.data.filter _)
    rw [filter_idem]
  · intro id lk msg sid m hsend c hcm
    cases hlk : lk id with
    | none =>
      simp only [sendRoute, hlk] at hsend
      exact SendResponse.noConfusion hsend
    | some sess =>
      cases hvs : validateString msg "message" maxMessageLength with
      | some e =>
        simp only [sendRoute, hlk, hvs] at hsend
        exact SendResponse.noConfusion hsend
      | none =>
        simp only [sendRoute, hlk, hvs] at hsend
        cases hsend
        exact not_isStrippedControl_of_mem_strip _ c hcm

/-- Witness for C10: the send route accepts the message hi followed by a
bell control character as the stripped text hi, whose characters are not
control characters. -/
theorem stripControlChars_no_controls_witness :
    isStrippedControl 'i' = false :=
  (stripControlChars_no_controls "x").2.2 "be-1" (constLookup killedSession)
    (JsValue.str "hi\x07") "be-1" "hi" (by decide) 'i' (by decide)
